import Mathlib

/-!
Shallow embedding of `src/index.js` of contentful-webhook-listener.

The program is a single Express endpoint (`app.all('/')`) that receives a
Contentful change-notification webhook, resolves the id and name of the user
who applied the change through the Content Management API (CMA), composes a
Slack message and posts it to a Slack incoming-webhook URL.

Two models are developed:

* a raw JavaScript-value model (`JsVal`, `handlerFront`) for the initial
  field extraction `body.sys.id`, `body.sys.space.sys.id`, `body.sys.type`,
  where a property read on `undefined` throws a TypeError while a missing
  leaf merely yields `undefined`;

* a typed model of the pipeline on well-formed bodies: `handleChangeNotification`
  together with `getUserId`, `getUserName` and `postToSlack`, which mirrors
  the promise chain `getUserId().then(getUserName).then(postToSlack)` with
  its single `.catch`.

Module-level mutable state matters in this program: line 31 of the source
declares `var body, type, id, cmaURL, contentfulDeeplinkURL,
slackMessageTemplate`.  The request handler assigns `body`, `cmaURL`,
`contentfulDeeplinkURL` and `slackMessageTemplate`, but its `const id` and
`const type` (lines 46 and 49) are new block-scoped bindings that shadow the
module-level `id` and `type`, which therefore remain `undefined` forever.
`getUserId` reads those module-level variables when it builds its CMA URL.
The model makes this explicit: `ModuleVars` carries every module-level
variable as an `Option` (`none` models JavaScript `undefined`), and string
interpolation of a possibly-undefined value goes through `optStr`, which
renders `none` as the string "undefined" exactly as JavaScript string
coercion does.

Authorization headers (the constant bearer token) are not modelled: no claim
concerns them.  Nested wrappers that carry a single id in the JSON payloads
are collapsed into one field with a comment at the structure.
-/

namespace ContentfulListener

/-- Message of a JavaScript TypeError raised by a property read on
`undefined`. -/
def undefinedReadError : String := "TypeError: cannot read properties of undefined"

/-- A JavaScript value as far as the extraction code observes it:
`undefined`, a string, or an object with string-keyed properties. -/
inductive JsVal where
  | undef
  | str (s : String)
  | obj (props : List (String × JsVal))

/-- Property read `v[k]`: on an object, a missing key yields `undefined`;
on a string, any property read yields `undefined` (as for the properties the
code reads); on `undefined` it throws a TypeError. -/
def jsGet : JsVal → String → Except String JsVal
  | JsVal.obj props, k => Except.ok ((props.lookup k).getD JsVal.undef)
  | JsVal.str _, _ => Except.ok JsVal.undef
  | JsVal.undef, _ => Except.error undefinedReadError

/-- Chained property reads `v[k1][k2]...`. -/
def jsPath : JsVal → List String → Except String JsVal
  | v, [] => Except.ok v
  | v, k :: ks =>
    match jsGet v k with
    | Except.ok w => jsPath w ks
    | Except.error e => Except.error e

/-- JavaScript loose comparison of a value against the string literal
"Entry", as in `type != 'Entry'` (there it appears negated). -/
def JsVal.eqEntry : JsVal → Bool
  | JsVal.str s => s == "Entry"
  | _ => false

/-- Outcome of the handler's initial field extraction and type filter
(source lines 45-57). -/
inductive ExtractOutcome where
  | thrown (e : String)
  | filtered
  | proceed (entityId spaceId : JsVal)

/-- Whether the extraction threw. -/
def ExtractOutcome.isThrown : ExtractOutcome → Bool
  | ExtractOutcome.thrown _ => true
  | _ => false

/-- The front of the request handler on a raw JavaScript body:
`const id = body.sys.id`, `const spaceId = body.sys.space.sys.id`,
`const type = body.sys.type`, then the filter `if (type != 'Entry')`
responding 200 and returning.  An exception anywhere in the extraction is
`thrown`; the informational 200 path is `filtered`. -/
def handlerFront (body : JsVal) : ExtractOutcome :=
  match jsGet body "sys" with
  | Except.error e => ExtractOutcome.thrown e
  | Except.ok sys =>
    match jsGet sys "id" with
    | Except.error e => ExtractOutcome.thrown e
    | Except.ok entityId =>
      match jsGet sys "space" with
      | Except.error e => ExtractOutcome.thrown e
      | Except.ok space =>
        match jsGet space "sys" with
        | Except.error e => ExtractOutcome.thrown e
        | Except.ok spaceSys =>
          match jsGet spaceSys "id" with
          | Except.error e => ExtractOutcome.thrown e
          | Except.ok spaceId =>
            match jsGet sys "type" with
            | Except.error e => ExtractOutcome.thrown e
            | Except.ok t =>
              if t.eqEntry then ExtractOutcome.proceed entityId spaceId
              else ExtractOutcome.filtered

/-! ## Typed model of the pipeline -/

/-- `body.sys.updatedBy` with its inner `sys.id` collapsed to `id`. -/
structure UpdatedBy where
  id : String
  deriving DecidableEq

/-- `body.sys`; `spaceId` collapses `space.sys.id`. -/
structure BodySys where
  id : String
  spaceId : String
  type : String
  updatedBy : Option UpdatedBy
  deriving DecidableEq

/-- A well-formed webhook body: `sys` plus the `fields` map, each field
being a map from locale code to value. -/
structure Body where
  sys : BodySys
  fields : List (String × List (String × String))
  deriving DecidableEq

/-- An inbound request: parsed JSON body plus the two Contentful headers
`x-contentful-webhook-name` and `x-contentful-topic`. -/
structure Request where
  body : Body
  webhookName : String
  webhookTopic : String
  deriving DecidableEq

/-- One entry of `attachments[0].fields` in the Slack message.  `value` is
an `Option` because `body.fields[key]['en-US']` is `undefined` when the
`en-US` locale is absent. -/
structure SlackField where
  title : String
  value : Option String
  short : Bool
  deriving DecidableEq

/-- One Slack attachment. -/
structure SlackAttachment where
  fallback : String
  pretext : String
  color : String
  fields : List SlackField
  deriving DecidableEq

/-- The Slack message (`slackMessageTemplate` and its final mutated form). -/
structure SlackMessage where
  username : String
  icon_emoji : String
  attachments : List SlackAttachment
  deriving DecidableEq

/-- The module-level variables of line 31, each `Option` because each is
`undefined` until (unless) assigned.  `type` and `id` are never assigned
anywhere in the program: the handler's `const` declarations shadow them. -/
structure ModuleVars where
  body : Option Body
  type : Option String
  id : Option String
  cmaURL : Option String
  contentfulDeeplinkURL : Option String
  slackMessageTemplate : Option SlackMessage
  deriving DecidableEq

/-- The module state before any request: everything `undefined`. -/
def initialVars : ModuleVars :=
  { body := none, type := none, id := none, cmaURL := none,
    contentfulDeeplinkURL := none, slackMessageTemplate := none }

/-- An HTTP response sent to the webhook caller. -/
structure Response where
  status : Nat
  body : String
  deriving DecidableEq

/-- An outbound HTTP call issued by the pipeline. -/
inductive HttpCall where
  | get (url : String)
  | post (url : String) (payload : SlackMessage)
  deriving DecidableEq

/-- Number of POST (Slack delivery) calls in a call list. -/
def postCount : List HttpCall → Nat
  | [] => 0
  | HttpCall.get _ :: rest => postCount rest
  | HttpCall.post _ _ :: rest => 1 + postCount rest

/-- The part of the CMA entity response the code reads:
`response.data.sys.updatedBy.sys.id`. -/
structure EntityData where
  updatedById : String
  deriving DecidableEq

/-- One item of the CMA users collection; `id` collapses `user.sys.id`. -/
structure CmaUser where
  id : String
  firstName : String
  lastName : String
  deriving DecidableEq

/-- Environment configuration (`process.env.slackURL`). -/
structure Config where
  slackURL : String
  deriving DecidableEq

/-- Responses of the outside world: the CMA entity endpoint (keyed by the
requested URL), the CMA users listing, and the Slack webhook.  `Except`
errors model transport failures and non-success statuses, which axios turns
into rejected promises. -/
structure World where
  entityGet : String → Except String EntityData
  usersGet : Except String (List CmaUser)
  slackPost : SlackMessage → Except String Unit

/-- JavaScript string interpolation of a possibly-undefined value:
`undefined` renders as "undefined". -/
def optStr : Option String → String
  | none => "undefined"
  | some s => s

/-- `typeUrlMap` of source lines 34-38. -/
def typeUrlMap : List (String × String) :=
  [("Entry", "entries"), ("Asset", "assets"), ("ContentType", "content_types")]

/-- `slackMessageTemplate` as assigned at source lines 66-81: username from
the webhook-name header, fixed icon and color, and one fixed field holding
the topic header. -/
def initialTemplate (req : Request) : SlackMessage :=
  { username := "Webhook: " ++ req.webhookName,
    icon_emoji := ":contentful:",
    attachments := [
      { fallback := "",
        pretext := "",
        color := "#000000",
        fields := [
          { title := "Action applied to Entry",
            value := some req.webhookTopic,
            short := false } ] } ] }

/-- The module state right after the handler's assignments on the Entry
path (source lines 45, 60, 62, 66-81): `body`, `cmaURL`,
`contentfulDeeplinkURL` and `slackMessageTemplate` are assigned; `type` and
`id` keep their previous (never-assigned) values because the handler's
`const type` and `const id` shadow them.  The deeplink uses the local
`type` and `id`, hence the request's own values. -/
def entryVars (prev : ModuleVars) (req : Request) : ModuleVars :=
  { prev with
    body := some req.body,
    cmaURL := some ("https://api.contentful.com/spaces/" ++ req.body.sys.spaceId ++ "/"),
    contentfulDeeplinkURL := some
      ("https://app.contentful.com/spaces/" ++ req.body.sys.spaceId ++ "/"
        ++ optStr (typeUrlMap.lookup req.body.sys.type) ++ "/" ++ req.body.sys.id),
    slackMessageTemplate := some (initialTemplate req) }

/-- `getUserId` (source lines 106-123).  If `body.sys.updatedBy` is present
the promise resolves to its id with no HTTP call.  Otherwise one GET is
issued to `cmaURL + typeUrlMap[type] + '/' + id` where `type` and `id` are
the module-level variables (never assigned, hence "undefined" in the URL
after string coercion). -/
def getUserId (w : World) (mv : ModuleVars) : Except String String × List HttpCall :=
  match mv.body with
  | none => (Except.error undefinedReadError, [])
  | some b =>
    match b.sys.updatedBy with
    | some u => (Except.ok u.id, [])
    | none =>
      let url := optStr mv.cmaURL
        ++ optStr (mv.type.bind (fun t => typeUrlMap.lookup t))
        ++ "/" ++ optStr mv.id
      match w.entityGet url with
      | Except.ok d => (Except.ok d.updatedById, [HttpCall.get url])
      | Except.error e => (Except.error e, [HttpCall.get url])

/-- `getUserName` (source lines 131-149): one GET to `cmaURL + 'users/'`,
then the items are filtered by `user.sys.id == userId` and `users[0]` is
read; on an empty filter result that read throws a TypeError, rejecting
the promise. -/
def getUserName (w : World) (mv : ModuleVars) (userId : String) :
    Except String String × List HttpCall :=
  let url := optStr mv.cmaURL ++ "users/"
  match w.usersGet with
  | Except.error e => (Except.error e, [HttpCall.get url])
  | Except.ok items =>
    match items.filter (fun u => u.id == userId) with
    | [] => (Except.error undefinedReadError, [HttpCall.get url])
    | u :: _ => (Except.ok (u.firstName ++ " " ++ u.lastName), [HttpCall.get url])

/-- The message mutation of `postToSlack` (source lines 160-172): the text
line (reading `contentfulDeeplinkURL` and `body.sys.type`), one pushed
field per key of `body.fields` valued at locale `en-US`, and the
fallback/pretext assignment on `attachments[0]`.  Reading `body` or
`slackMessageTemplate` while undefined, or `attachments[0]` of an empty
array, throws. -/
def composeMessage (mv : ModuleVars) (userName : String) : Except String SlackMessage :=
  match mv.body, mv.slackMessageTemplate with
  | some b, some tmpl =>
    match tmpl.attachments with
    | [] => Except.error undefinedReadError
    | a :: rest =>
      let message := "An Entry has just been changed by " ++ userName
        ++ ". The full Entry is below in the fields. Here is the link to the entry: <"
        ++ optStr mv.contentfulDeeplinkURL ++ "|Link to " ++ b.sys.type ++ ">"
      let pushed := b.fields.map (fun kv =>
        { title := "field." ++ kv.1,
          value := kv.2.lookup "en-US",
          short := false : SlackField })
      Except.ok { tmpl with attachments :=
        { a with fields := a.fields ++ pushed,
                 fallback := message,
                 pretext := message } :: rest }
  | _, _ => Except.error undefinedReadError

/-- `postToSlack` (source lines 157-179): mutate the module-level template
as in `composeMessage`, then POST it to the Slack URL.  Returns the promise
outcome, the module state after the mutation, and the calls issued. -/
def postToSlack (cfg : Config) (w : World) (mv : ModuleVars) (userName : String) :
    Except String Unit × ModuleVars × List HttpCall :=
  match composeMessage mv userName with
  | Except.error e => (Except.error e, mv, [])
  | Except.ok msg =>
    (w.slackPost msg,
     { mv with slackMessageTemplate := some msg },
     [HttpCall.post cfg.slackURL msg])

/-- The promise chain `getUserId().then(getUserName).then(postToSlack)`
with its final `.then` / `.catch` (source lines 88-96): a rejection at any
step skips the remaining steps and answers 500 with the error; full
success answers 200. -/
def runChain (cfg : Config) (w : World) (mv : ModuleVars) :
    ModuleVars × Response × List HttpCall :=
  match getUserId w mv with
  | (Except.error e, c1) => (mv, { status := 500, body := e }, c1)
  | (Except.ok userId, c1) =>
    match getUserName w mv userId with
    | (Except.error e, c2) => (mv, { status := 500, body := e }, c1 ++ c2)
    | (Except.ok userName, c2) =>
      match postToSlack cfg w mv userName with
      | (Except.error e, mv2, c3) =>
        (mv2, { status := 500, body := e }, c1 ++ c2 ++ c3)
      | (Except.ok _, mv2, c3) =>
        (mv2, { status := 200, body := "Slack post successful!" }, c1 ++ c2 ++ c3)

/-- The request handler `app.all('/')` (source lines 40-97) on a
well-formed body, threading the module-level state: assign `body`; if
`type != 'Entry'` answer 200 with the informational message and stop
(the source states the test negated with an early return); otherwise
assign the URLs and the fresh template and run the chain. -/
def handleChangeNotification (cfg : Config) (w : World) (prev : ModuleVars)
    (req : Request) : ModuleVars × Response × List HttpCall :=
  if req.body.sys.type = "Entry" then
    runChain cfg w (entryVars prev req)
  else
    ({ prev with body := some req.body },
     { status := 200, body := "I am only posting entries to slack!" }, [])

/-! ## Helper lemmas -/

/-- The first element of a filtered list is its first match. -/
theorem head_of_filter_eq_find (p : α → Bool) :
    ∀ l : List α, (l.filter p).head? = l.find? p := by
  intro l
  induction l with
  | nil => rfl
  | cons a t ih =>
    cases h : p a with
    | true => simp [List.filter_cons, h, List.find?_cons_of_pos]
    | false => simp [List.filter_cons, h, List.find?_cons_of_neg, ih]

/-- `getUserId` never issues a POST. -/
theorem getUserId_postCount (w : World) (mv : ModuleVars) :
    postCount (getUserId w mv).2 = 0 := by
  unfold getUserId
  split
  · rfl
  · split
    · rfl
    · dsimp only
      split <;> rfl

/-- `getUserName` never issues a POST. -/
theorem getUserName_postCount (w : World) (mv : ModuleVars) (userId : String) :
    postCount (getUserName w mv userId).2 = 0 := by
  unfold getUserName
  dsimp only
  split
  · rfl
  · split <;> rfl

/-- `postCount` distributes over append. -/
theorem postCount_append (l1 l2 : List HttpCall) :
    postCount (l1 ++ l2) = postCount l1 + postCount l2 := by
  induction l1 with
  | nil => simp [postCount]
  | cons c rest ih =>
    cases c with
    | get u => simpa [postCount] using ih
    | post u m => simp [postCount, ih]; omega

/-- On an Entry-typed request the handler runs the chain on the freshly
assigned module state. -/
theorem handleChangeNotification_entry (cfg : Config) (w : World)
    (prev : ModuleVars) (req : Request) (h : req.body.sys.type = "Entry") :
    handleChangeNotification cfg w prev req = runChain cfg w (entryVars prev req) := by
  simp [handleChangeNotification, h]

/-! ## Concrete fixtures used by witnesses and counterexamples -/

/-- A concrete configuration. -/
def cfg0 : Config := { slackURL := "https://hooks.slack.com/T0" }

/-- A world where every outbound call succeeds. -/
def okWorld : World :=
  { entityGet := fun _ => Except.ok { updatedById := "U1" },
    usersGet := Except.ok [
      { id := "U0", firstName := "Grace", lastName := "Hopper" },
      { id := "U1", firstName := "Ada", lastName := "Lovelace" } ],
    slackPost := fun _ => Except.ok () }

/-- A world whose users collection does not contain user U9. -/
def missWorld : World :=
  { entityGet := fun _ => Except.ok { updatedById := "U9" },
    usersGet := Except.ok [
      { id := "U0", firstName := "Grace", lastName := "Hopper" } ],
    slackPost := fun _ => Except.ok () }

/-- A concrete Asset-typed payload. -/
def reqAsset : Request :=
  { body := { sys := { id := "a1", spaceId := "s1", type := "Asset", updatedBy := none },
              fields := [] },
    webhookName := "hook", webhookTopic := "ContentManagement.Asset.publish" }

/-- A concrete Entry-typed payload carrying an updater id. -/
def reqEntryUpd : Request :=
  { body := { sys := { id := "e1", spaceId := "s1", type := "Entry",
                       updatedBy := some { id := "U1" } },
              fields := [("title", [("en-US", "Hello")]), ("body", [("en-US", "World")])] },
    webhookName := "hook", webhookTopic := "ContentManagement.Entry.publish" }

/-- A concrete Entry-typed payload carrying updater id U9. -/
def reqEntryU9 : Request :=
  { body := { sys := { id := "e2", spaceId := "s1", type := "Entry",
                       updatedBy := some { id := "U9" } },
              fields := [] },
    webhookName := "hook", webhookTopic := "ContentManagement.Entry.auto_save" }

/-! ## C1 -/

/-- C1: for every inbound request whose body's `sys.type` is not "Entry",
the handler responds with status 200 and the informational message, issues
zero outbound HTTP calls, and performs no further processing (the module
state is left unchanged apart from the `body` assignment that precedes the
filter). -/
theorem non_entry_requests_are_skipped (cfg : Config) (w : World)
    (prev : ModuleVars) (req : Request) (h : req.body.sys.type ≠ "Entry") :
    handleChangeNotification cfg w prev req =
      ({ prev with body := some req.body },
       { status := 200, body := "I am only posting entries to slack!" }, []) := by
  simp [handleChangeNotification, h]

/-- Witness for C1 at a concrete Asset payload. -/
theorem non_entry_requests_are_skipped_witness :
    handleChangeNotification cfg0 okWorld initialVars reqAsset =
      ({ initialVars with body := some reqAsset.body },
       { status := 200, body := "I am only posting entries to slack!" }, []) :=
  non_entry_requests_are_skipped cfg0 okWorld initialVars reqAsset (by decide)

/-! ## C3 -/

/-- C3: for every users-collection response containing a user whose id
equals the resolved user id, `getUserName` resolves to that (first
matching) user's `firstName ++ " " ++ lastName`. -/
theorem getUserName_resolves_matching_user (w : World) (mv : ModuleVars)
    (userId : String) (items : List CmaUser) (u : CmaUser)
    (hw : w.usersGet = Except.ok items)
    (hf : items.find? (fun v => v.id == userId) = some u) :
    (getUserName w mv userId).1 = Except.ok (u.firstName ++ " " ++ u.lastName) := by
  have hh : (items.filter (fun v => v.id == userId)).head? = some u := by
    rw [head_of_filter_eq_find, hf]
  unfold getUserName
  dsimp only
  rw [hw]
  dsimp only
  cases hfl : items.filter (fun v => v.id == userId) with
  | nil => rw [hfl] at hh; simp at hh
  | cons v t =>
    rw [hfl] at hh
    simp only [List.head?_cons, Option.some.injEq] at hh
    subst hh
    rfl

/-- Witness for C3: the collection containing id U1 with first name Ada and
last name Lovelace resolves U1 to "Ada Lovelace". -/
theorem getUserName_resolves_matching_user_witness :
    (getUserName okWorld initialVars "U1").1 = Except.ok "Ada Lovelace" := by
  have h := getUserName_resolves_matching_user okWorld initialVars "U1"
    [ { id := "U0", firstName := "Grace", lastName := "Hopper" },
      { id := "U1", firstName := "Ada", lastName := "Lovelace" } ]
    { id := "U1", firstName := "Ada", lastName := "Lovelace" }
    rfl (by decide)
  exact h.trans (by rfl)

/-! ## C4 -/

/-- C4: when the users collection holds no entry matching the resolved user
id, the name lookup fails with the TypeError of indexing an empty filter
result, the remaining pipeline steps are aborted (no Slack POST is ever
issued) and the handler answers with status 500. -/
theorem lookup_miss_yields_server_error (cfg : Config) (w : World)
    (prev : ModuleVars) (req : Request) (userId : String) (items : List CmaUser)
    (ht : req.body.sys.type = "Entry")
    (hid : (getUserId w (entryVars prev req)).1 = Except.ok userId)
    (hw : w.usersGet = Except.ok items)
    (hmiss : items.find? (fun v => v.id == userId) = none) :
    (handleChangeNotification cfg w prev req).2.1 =
        { status := 500, body := undefinedReadError } ∧
    postCount (handleChangeNotification cfg w prev req).2.2 = 0 := by
  rw [handleChangeNotification_entry cfg w prev req ht]
  have hfl : items.filter (fun v => v.id == userId) = [] := by
    have hh := head_of_filter_eq_find (fun v => v.id == userId) items
    rw [hmiss] at hh
    exact List.head?_eq_none_iff.mp hh
  have hname : getUserName w (entryVars prev req) userId =
      (Except.error undefinedReadError,
       [HttpCall.get (optStr (entryVars prev req).cmaURL ++ "users/")]) := by
    unfold getUserName
    dsimp only
    rw [hw]
    dsimp only
    rw [hfl]
  unfold runChain
  cases hg : getUserId w (entryVars prev req) with
  | mk r c1 =>
    rw [hg] at hid
    dsimp only at hid
    subst hid
    have hc1 : postCount c1 = 0 := by
      have hp := getUserId_postCount w (entryVars prev req)
      rw [hg] at hp
      exact hp
    dsimp only
    rw [hname]
    exact ⟨rfl, by simp [postCount_append, hc1, postCount]⟩

/-- Witness for C4: a users collection without U9 aborts the pipeline with
a 500 response and no Slack POST. -/
theorem lookup_miss_yields_server_error_witness :
    (handleChangeNotification cfg0 missWorld initialVars reqEntryU9).2.1 =
        { status := 500, body := undefinedReadError } ∧
    postCount (handleChangeNotification cfg0 missWorld initialVars reqEntryU9).2.2 = 0 :=
  lookup_miss_yields_server_error cfg0 missWorld initialVars reqEntryU9 "U9"
    [ { id := "U0", firstName := "Grace", lastName := "Hopper" } ]
    rfl rfl rfl (by decide)

/-! ## C5 and C6: the composed Slack message -/

/-- The deeplink built for an Entry:
`https://app.contentful.com/spaces/{spaceId}/entries/{entityId}`. -/
def deeplinkEntries (req : Request) : String :=
  "https://app.contentful.com/spaces/" ++ req.body.sys.spaceId
    ++ "/entries/" ++ req.body.sys.id

/-- The summary line of the Slack message for an Entry change. -/
def entryMessageText (req : Request) (userName : String) : String :=
  "An Entry has just been changed by " ++ userName
    ++ ". The full Entry is below in the fields. Here is the link to the entry: <"
    ++ deeplinkEntries req ++ "|Link to Entry>"

/-- Merging the adjacent literals around the "entries" URL fragment. -/
theorem append_entries_merge (x y : String) :
    x ++ "/" ++ "entries" ++ "/" ++ y = x ++ "/entries/" ++ y := by
  have h : ("/entries/" : String) = "/" ++ "entries" ++ "/" := rfl
  rw [h]
  simp [String.append_assoc]

/-- Merging the adjacent literals around the link label. -/
theorem append_link_entry_merge (x : String) :
    x ++ "|Link to " ++ "Entry" ++ ">" = x ++ "|Link to Entry>" := by
  have h : ("|Link to Entry>" : String) = "|Link to " ++ "Entry" ++ ">" := rfl
  rw [h]
  simp [String.append_assoc]

/-- Full evaluation of the message composition on the module state assigned
for an Entry-typed request. -/
theorem composeMessage_entryVars (prev : ModuleVars) (req : Request)
    (userName : String) (ht : req.body.sys.type = "Entry") :
    composeMessage (entryVars prev req) userName =
      Except.ok
        { username := "Webhook: " ++ req.webhookName,
          icon_emoji := ":contentful:",
          attachments := [
            { fallback := entryMessageText req userName,
              pretext := entryMessageText req userName,
              color := "#000000",
              fields :=
                { title := "Action applied to Entry",
                  value := some req.webhookTopic, short := false }
                :: req.body.fields.map (fun kv =>
                    { title := "field." ++ kv.1,
                      value := kv.2.lookup "en-US", short := false }) } ] } := by
  unfold composeMessage entryVars initialTemplate
  dsimp only
  rw [ht]
  have hl : optStr (typeUrlMap.lookup "Entry") = "entries" := rfl
  rw [hl, append_entries_merge, append_link_entry_merge]
  rfl

/-- The payloads of the POST calls in a call list. -/
def postedMessages : List HttpCall → List SlackMessage
  | [] => []
  | HttpCall.get _ :: rest => postedMessages rest
  | HttpCall.post _ m :: rest => m :: postedMessages rest

/-- C5: for every Entry-typed request reaching message composition, the
message POSTed by `postToSlack` has username "Webhook: " followed by the
webhook-name header, and its single attachment carries the summary line
(with the entries deeplink and the "Link to Entry" label) as both pretext
and fallback. -/
theorem composed_message_header (cfg : Config) (w : World) (prev : ModuleVars)
    (req : Request) (userName : String) (ht : req.body.sys.type = "Entry") :
    (postedMessages (postToSlack cfg w (entryVars prev req) userName).2.2).map
        SlackMessage.username = ["Webhook: " ++ req.webhookName] ∧
    (postedMessages (postToSlack cfg w (entryVars prev req) userName).2.2).map
        (fun m => m.attachments.map SlackAttachment.pretext)
        = [[entryMessageText req userName]] ∧
    (postedMessages (postToSlack cfg w (entryVars prev req) userName).2.2).map
        (fun m => m.attachments.map SlackAttachment.fallback)
        = [[entryMessageText req userName]] := by
  unfold postToSlack
  rw [composeMessage_entryVars prev req userName ht]
  exact ⟨rfl, rfl, rfl⟩

/-- Witness for C5 at a concrete Entry request. -/
theorem composed_message_header_witness :
    (postedMessages (postToSlack cfg0 okWorld (entryVars initialVars reqEntryUpd)
        "Ada Lovelace").2.2).map SlackMessage.username = ["Webhook: hook"] ∧
    (postedMessages (postToSlack cfg0 okWorld (entryVars initialVars reqEntryUpd)
        "Ada Lovelace").2.2).map
        (fun m => m.attachments.map SlackAttachment.pretext)
      = [["An Entry has just been changed by Ada Lovelace. The full Entry is below in the fields. Here is the link to the entry: <https://app.contentful.com/spaces/s1/entries/e1|Link to Entry>"]] ∧
    (postedMessages (postToSlack cfg0 okWorld (entryVars initialVars reqEntryUpd)
        "Ada Lovelace").2.2).map
        (fun m => m.attachments.map SlackAttachment.fallback)
      = [["An Entry has just been changed by Ada Lovelace. The full Entry is below in the fields. Here is the link to the entry: <https://app.contentful.com/spaces/s1/entries/e1|Link to Entry>"]] := by
  have h := composed_message_header cfg0 okWorld initialVars reqEntryUpd
    "Ada Lovelace" rfl
  exact ⟨h.1.trans (by rfl), h.2.1.trans (by rfl), h.2.2.trans (by rfl)⟩

/-- C6: for every Entry-typed payload, the POSTed message's attachment
fields are exactly the fixed "Action applied to Entry" field valued at the
topic header, followed by one field per key of the payload's `fields` map,
titled "field." plus the key and valued at that key's "en-US" locale value
(absent when "en-US" is missing). -/
theorem composed_message_fields (cfg : Config) (w : World) (prev : ModuleVars)
    (req : Request) (userName : String) (ht : req.body.sys.type = "Entry") :
    (postedMessages (postToSlack cfg w (entryVars prev req) userName).2.2).map
        (fun m => m.attachments.map SlackAttachment.fields)
      = [[ { title := "Action applied to Entry",
             value := some req.webhookTopic, short := false }
           :: req.body.fields.map (fun kv =>
                { title := "field." ++ kv.1,
                  value := kv.2.lookup "en-US", short := false }) ]] := by
  unfold postToSlack
  rw [composeMessage_entryVars prev req userName ht]
  rfl

/-- Witness for C6: fields {title: Hello, body: World} yield exactly the
two extra fields `field.title` and `field.body` after the fixed one. -/
theorem composed_message_fields_witness :
    (postedMessages (postToSlack cfg0 okWorld (entryVars initialVars reqEntryUpd)
        "Ada Lovelace").2.2).map
        (fun m => m.attachments.map SlackAttachment.fields)
      = [[[ { title := "Action applied to Entry",
              value := some "ContentManagement.Entry.publish", short := false },
            { title := "field.title", value := some "Hello", short := false },
            { title := "field.body", value := some "World", short := false } ]]] := by
  have h := composed_message_fields cfg0 okWorld initialVars reqEntryUpd
    "Ada Lovelace" rfl
  exact h.trans (by rfl)

/-! ## C7: single error boundary -/

/-- A fulfilled `postToSlack` issued exactly one POST. -/
theorem postToSlack_ok_postCount (cfg : Config) (w : World) (mv : ModuleVars)
    (userName : String) (u : Unit)
    (h : (postToSlack cfg w mv userName).1 = Except.ok u) :
    postCount (postToSlack cfg w mv userName).2.2 = 1 := by
  unfold postToSlack at h ⊢
  cases hc : composeMessage mv userName with
  | error e => rw [hc] at h; simp at h
  | ok msg => rfl

/-- A world where every outbound call fails with a connection error. -/
def downWorld : World :=
  { entityGet := fun _ => Except.error "ECONNREFUSED",
    usersGet := Except.error "ECONNREFUSED",
    slackPost := fun _ => Except.error "ECONNREFUSED" }

/-- A concrete Entry-typed payload without an updater id. -/
def reqEntryNoUpd : Request :=
  { body := { sys := { id := "e1", spaceId := "s1", type := "Entry", updatedBy := none },
              fields := [("title", [("en-US", "Hello")])] },
    webhookName := "hook", webhookTopic := "ContentManagement.Entry.publish" }

/-- C7: every rejection in the chain reaches the single `.catch`, which
answers 500 with the error as the body; steps after the failing one are
skipped, so no Slack POST is issued when either lookup fails, the response
is 200 only on full success, and on full success exactly one POST is
issued. -/
theorem pipeline_single_error_boundary (cfg : Config) (w : World)
    (prev : ModuleVars) (req : Request) (ht : req.body.sys.type = "Entry") :
    (∀ e, (getUserId w (entryVars prev req)).1 = Except.error e →
        (handleChangeNotification cfg w prev req).2.1 = { status := 500, body := e } ∧
        postCount (handleChangeNotification cfg w prev req).2.2 = 0) ∧
    (∀ userId e, (getUserId w (entryVars prev req)).1 = Except.ok userId →
        (getUserName w (entryVars prev req) userId).1 = Except.error e →
        (handleChangeNotification cfg w prev req).2.1 = { status := 500, body := e } ∧
        postCount (handleChangeNotification cfg w prev req).2.2 = 0) ∧
    (∀ userId userName e, (getUserId w (entryVars prev req)).1 = Except.ok userId →
        (getUserName w (entryVars prev req) userId).1 = Except.ok userName →
        (postToSlack cfg w (entryVars prev req) userName).1 = Except.error e →
        (handleChangeNotification cfg w prev req).2.1 = { status := 500, body := e }) ∧
    (∀ userId userName, (getUserId w (entryVars prev req)).1 = Except.ok userId →
        (getUserName w (entryVars prev req) userId).1 = Except.ok userName →
        (postToSlack cfg w (entryVars prev req) userName).1 = Except.ok () →
        (handleChangeNotification cfg w prev req).2.1 =
            { status := 200, body := "Slack post successful!" } ∧
        postCount (handleChangeNotification cfg w prev req).2.2 = 1) := by
  rw [handleChangeNotification_entry cfg w prev req ht]
  unfold runChain
  cases hg : getUserId w (entryVars prev req) with
  | mk r1 c1 =>
    have hc1 : postCount c1 = 0 := by
      have hp := getUserId_postCount w (entryVars prev req)
      rw [hg] at hp
      exact hp
    refine ⟨?_, ?_, ?_, ?_⟩
    · intro e he
      dsimp only at he
      subst he
      exact ⟨rfl, hc1⟩
    · intro userId e hok hn
      dsimp only at hok
      subst hok
      dsimp only
      cases hn2 : getUserName w (entryVars prev req) userId with
      | mk r2 c2 =>
        have hc2 : postCount c2 = 0 := by
          have hp := getUserName_postCount w (entryVars prev req) userId
          rw [hn2] at hp
          exact hp
        rw [hn2] at hn
        dsimp only at hn
        subst hn
        exact ⟨rfl, by simp [postCount_append, hc1, hc2]⟩
    · intro userId userName e hok hn hs
      dsimp only at hok
      subst hok
      dsimp only
      cases hn2 : getUserName w (entryVars prev req) userId with
      | mk r2 c2 =>
        rw [hn2] at hn
        dsimp only at hn
        subst hn
        dsimp only
        cases hp3 : postToSlack cfg w (entryVars prev req) userName with
        | mk r3 p =>
          cases p with
          | mk mv2 c3 =>
            rw [hp3] at hs
            dsimp only at hs
            subst hs
            rfl
    · intro userId userName hok hn hs
      dsimp only at hok
      subst hok
      dsimp only
      cases hn2 : getUserName w (entryVars prev req) userId with
      | mk r2 c2 =>
        have hc2 : postCount c2 = 0 := by
          have hp := getUserName_postCount w (entryVars prev req) userId
          rw [hn2] at hp
          exact hp
        rw [hn2] at hn
        dsimp only at hn
        subst hn
        dsimp only
        cases hp3 : postToSlack cfg w (entryVars prev req) userName with
        | mk r3 p =>
          cases p with
          | mk mv2 c3 =>
            have hc3 : postCount c3 = 1 := by
              have hp := postToSlack_ok_postCount cfg w (entryVars prev req) userName ()
              rw [hp3] at hs
              dsimp only at hs
              rw [hp3] at hp
              exact hp (by rw [hs])
            rw [hp3] at hs
            dsimp only at hs
            subst hs
            exact ⟨rfl, by simp [postCount_append, hc1, hc2, hc3]⟩

/-- Witness for C7: a failing CMA lookup answers 500 "ECONNREFUSED" with no
POST issued; a fully successful pipeline answers 200 with exactly one POST. -/
theorem pipeline_single_error_boundary_witness :
    ((handleChangeNotification cfg0 downWorld initialVars reqEntryNoUpd).2.1 =
        { status := 500, body := "ECONNREFUSED" } ∧
     postCount (handleChangeNotification cfg0 downWorld initialVars reqEntryNoUpd).2.2 = 0) ∧
    ((handleChangeNotification cfg0 okWorld initialVars reqEntryUpd).2.1 =
        { status := 200, body := "Slack post successful!" } ∧
     postCount (handleChangeNotification cfg0 okWorld initialVars reqEntryUpd).2.2 = 1) :=
  ⟨(pipeline_single_error_boundary cfg0 downWorld initialVars reqEntryNoUpd rfl).1
      "ECONNREFUSED" rfl,
   (pipeline_single_error_boundary cfg0 okWorld initialVars reqEntryUpd rfl).2.2.2
      "U1" "Ada Lovelace" rfl rfl rfl⟩

/-! ## C2 and C9: the CMA entity lookup URL

The handler's `const id` and `const type` shadow the module-level `id` and
`type` that `getUserId` interpolates into the CMA URL, so the one GET issued
for a payload without `updatedBy` goes to
`spaces/{spaceId}/undefined/undefined` instead of
`spaces/{spaceId}/entries/{entityId}`. -/

/-- C2 (failing part): at a concrete Entry payload without an updater id,
the pipeline issues exactly one entity GET before the users lookup, but its
URL ends in `undefined/undefined` rather than `entries/e1`.  The claim's
zero-call half is proved separately in
`present_updater_id_needs_no_lookup`. -/
theorem entity_lookup_goes_to_undefined_url :
    (handleChangeNotification cfg0 okWorld initialVars reqEntryNoUpd).2.2.take 2 =
      [HttpCall.get "https://api.contentful.com/spaces/s1/undefined/undefined",
       HttpCall.get "https://api.contentful.com/spaces/s1/users/"] ∧
    (handleChangeNotification cfg0 okWorld initialVars reqEntryNoUpd).2.2.take 2 ≠
      [HttpCall.get "https://api.contentful.com/spaces/s1/entries/e1",
       HttpCall.get "https://api.contentful.com/spaces/s1/users/"] := by
  refine ⟨rfl, ?_⟩
  intro h
  have h2 := (Eq.refl
    ((handleChangeNotification cfg0 okWorld initialVars reqEntryNoUpd).2.2.take 2)).symm.trans h
  rw [show (handleChangeNotification cfg0 okWorld initialVars reqEntryNoUpd).2.2.take 2 =
      [HttpCall.get "https://api.contentful.com/spaces/s1/undefined/undefined",
       HttpCall.get "https://api.contentful.com/spaces/s1/users/"] from rfl] at h2
  exact absurd h2 (by decide)

/-- The zero-call half of C2: a payload carrying `sys.updatedBy` resolves
the user id directly with no HTTP call. -/
theorem present_updater_id_needs_no_lookup (w : World) (mv : ModuleVars)
    (b : Body) (u : UpdatedBy) (hb : mv.body = some b)
    (hu : b.sys.updatedBy = some u) :
    getUserId w mv = (Except.ok u.id, []) := by
  unfold getUserId
  rw [hb]
  dsimp only
  rw [hu]

/-- Witness for the zero-call half of C2. -/
theorem present_updater_id_needs_no_lookup_witness :
    getUserId okWorld (entryVars initialVars reqEntryUpd) =
      (Except.ok "U1", []) :=
  present_updater_id_needs_no_lookup okWorld (entryVars initialVars reqEntryUpd)
    reqEntryUpd.body { id := "U1" } rfl rfl

/-- C9: the one entity lookup `getUserId` actually issues does not use the
fragment "entries": on the module state a reachable Entry request produces
(module-level `type` and `id` never assigned), the URL fragment is the
string "undefined". -/
theorem entity_lookup_fragment_is_not_entries :
    (getUserId okWorld (entryVars initialVars reqEntryNoUpd)).2 =
      [HttpCall.get "https://api.contentful.com/spaces/s1/undefined/undefined"] ∧
    (getUserId okWorld (entryVars initialVars reqEntryNoUpd)).2 ≠
      [HttpCall.get "https://api.contentful.com/spaces/s1/entries/e1"] := by
  refine ⟨rfl, ?_⟩
  intro h
  rw [show (getUserId okWorld (entryVars initialVars reqEntryNoUpd)).2 =
      [HttpCall.get "https://api.contentful.com/spaces/s1/undefined/undefined"] from rfl] at h
  exact absurd h (by decide)

/-! ## C8: malformed input -/

/-- A concrete body whose `sys` object lacks the `type` leaf (while `sys`,
`sys.space` and `sys.space.sys` are present). -/
def bodyNoType : JsVal :=
  JsVal.obj [("sys", JsVal.obj [
    ("id", JsVal.str "e1"),
    ("space", JsVal.obj [("sys", JsVal.obj [("id", JsVal.str "s1")])])])]

/-- Counterexample to C8 as stated: the body `bodyNoType` lacks the
required field `sys.type` (reading it yields `undefined`), yet extraction
raises no exception — the handler takes the informational 200 filter path
because `undefined != 'Entry'`. -/
theorem missing_type_field_does_not_throw :
    jsPath bodyNoType ["sys", "type"] = Except.ok JsVal.undef ∧
    handlerFront bodyNoType = ExtractOutcome.filtered ∧
    (handlerFront bodyNoType).isThrown = false :=
  ⟨rfl, rfl, rfl⟩

/-- C8 (amended): an uncaught TypeError arises during extraction exactly
when an intermediate object of a required path is missing: a body without
`sys`, or whose `sys` lacks `space`, throws; a body whose `sys` object
merely lacks the `type` leaf extracts without exception and takes the 200
informational filter path. -/
theorem extraction_throws_only_on_missing_containers :
    (∀ props : List (String × JsVal), props.lookup "sys" = none →
        handlerFront (JsVal.obj props) = ExtractOutcome.thrown undefinedReadError) ∧
    (∀ (props sysProps : List (String × JsVal)),
        props.lookup "sys" = some (JsVal.obj sysProps) →
        sysProps.lookup "space" = none →
        handlerFront (JsVal.obj props) = ExtractOutcome.thrown undefinedReadError) ∧
    (∀ (props sysProps spaceProps ssProps : List (String × JsVal)),
        props.lookup "sys" = some (JsVal.obj sysProps) →
        sysProps.lookup "space" = some (JsVal.obj spaceProps) →
        spaceProps.lookup "sys" = some (JsVal.obj ssProps) →
        sysProps.lookup "type" = none →
        handlerFront (JsVal.obj props) = ExtractOutcome.filtered) := by
  refine ⟨?_, ?_, ?_⟩
  · intro props h
    unfold handlerFront
    simp [jsGet, h]
  · intro props sysProps h1 h2
    unfold handlerFront
    simp [jsGet, h1, h2]
  · intro props sysProps spaceProps ssProps h1 h2 h3 h4
    unfold handlerFront
    simp [jsGet, h1, h2, h3, h4, JsVal.eqEntry]

/-- Witness for the amended C8, instantiating the three cases. -/
theorem extraction_throws_only_on_missing_containers_witness :
    handlerFront (JsVal.obj [("other", JsVal.str "x")]) =
        ExtractOutcome.thrown undefinedReadError ∧
    handlerFront (JsVal.obj [("sys", JsVal.obj [("id", JsVal.str "e1")])]) =
        ExtractOutcome.thrown undefinedReadError ∧
    handlerFront bodyNoType = ExtractOutcome.filtered :=
  ⟨extraction_throws_only_on_missing_containers.1 [("other", JsVal.str "x")] rfl,
   extraction_throws_only_on_missing_containers.2.1
     [("sys", JsVal.obj [("id", JsVal.str "e1")])] [("id", JsVal.str "e1")] rfl rfl,
   extraction_throws_only_on_missing_containers.2.2
     [("sys", JsVal.obj [
        ("id", JsVal.str "e1"),
        ("space", JsVal.obj [("sys", JsVal.obj [("id", JsVal.str "s1")])])])]
     [("id", JsVal.str "e1"),
      ("space", JsVal.obj [("sys", JsVal.obj [("id", JsVal.str "s1")])])]
     [("sys", JsVal.obj [("id", JsVal.str "s1")])]
     [("id", JsVal.str "s1")]
     rfl rfl rfl rfl⟩

/-! ## C10: no cross-request accumulation in the message template -/

/-- No POST call is issued by `getUserId`. -/
theorem post_not_in_getUserId (w : World) (mv : ModuleVars) (url : String)
    (m : SlackMessage) : HttpCall.post url m ∉ (getUserId w mv).2 := by
  unfold getUserId
  split
  · simp
  · split
    · simp
    · dsimp only
      split <;> simp

/-- No POST call is issued by `getUserName`. -/
theorem post_not_in_getUserName (w : World) (mv : ModuleVars) (userId : String)
    (url : String) (m : SlackMessage) :
    HttpCall.post url m ∉ (getUserName w mv userId).2 := by
  unfold getUserName
  dsimp only
  split
  · simp
  · split <;> simp

/-- Every POSTed payload of a chain run is the message composed from the
module state the chain was started on. -/
theorem post_in_runChain (cfg : Config) (w : World) (mv : ModuleVars)
    (url : String) (m : SlackMessage)
    (hmem : HttpCall.post url m ∈ (runChain cfg w mv).2.2) :
    ∃ userName, composeMessage mv userName = Except.ok m ∧ url = cfg.slackURL := by
  unfold runChain at hmem
  cases hg : getUserId w mv with
  | mk r1 c1 =>
    rw [hg] at hmem
    have hnp1 : HttpCall.post url m ∉ c1 := by
      have h := post_not_in_getUserId w mv url m
      rw [hg] at h
      exact h
    cases r1 with
    | error e => exact absurd hmem hnp1
    | ok userId =>
      dsimp only at hmem
      cases hn : getUserName w mv userId with
      | mk r2 c2 =>
        rw [hn] at hmem
        have hnp2 : HttpCall.post url m ∉ c2 := by
          have h := post_not_in_getUserName w mv userId url m
          rw [hn] at h
          exact h
        cases r2 with
        | error e =>
          dsimp only at hmem
          rcases List.mem_append.mp hmem with h | h
          · exact absurd h hnp1
          · exact absurd h hnp2
        | ok userName =>
          dsimp only at hmem
          cases hp : postToSlack cfg w mv userName with
          | mk r3 p =>
            cases p with
            | mk mv2 c3 =>
              rw [hp] at hmem
              have hc3 : HttpCall.post url m ∈ c3 →
                  composeMessage mv userName = Except.ok m ∧ url = cfg.slackURL := by
                intro h3
                unfold postToSlack at hp
                cases hcm : composeMessage mv userName with
                | error e =>
                  rw [hcm] at hp
                  cases hp
                  simp at h3
                | ok msg =>
                  rw [hcm] at hp
                  cases hp
                  simp at h3
                  rw [h3.2, h3.1]
                  exact ⟨rfl, rfl⟩
              cases r3 with
              | error e =>
                dsimp only at hmem
                rcases List.mem_append.mp hmem with h | h
                · rcases List.mem_append.mp h with h2 | h2
                  · exact absurd h2 hnp1
                  · exact absurd h2 hnp2
                · exact ⟨userName, hc3 h⟩
              | ok uv =>
                dsimp only at hmem
                rcases List.mem_append.mp hmem with h | h
                · rcases List.mem_append.mp h with h2 | h2
                  · exact absurd h2 hnp1
                  · exact absurd h2 hnp2
                · exact ⟨userName, hc3 h⟩

/-- C10: under sequential handling, the message POSTed while handling a
second request contains only that request's header values and payload
fields, whatever the first request left in the module-level variables: the
template is reassigned fresh before any field is appended. -/
theorem second_request_message_has_only_its_fields
    (cfg : Config) (w1 w2 : World) (st : ModuleVars) (req1 req2 : Request)
    (url : String) (m : SlackMessage)
    (ht : req2.body.sys.type = "Entry")
    (hmem : HttpCall.post url m ∈
        (handleChangeNotification cfg w2
          (handleChangeNotification cfg w1 st req1).1 req2).2.2) :
    m.username = "Webhook: " ++ req2.webhookName ∧
    m.attachments.map SlackAttachment.fields =
      [ { title := "Action applied to Entry",
          value := some req2.webhookTopic, short := false }
        :: req2.body.fields.map (fun kv =>
            { title := "field." ++ kv.1,
              value := kv.2.lookup "en-US", short := false }) ] := by
  rw [handleChangeNotification_entry _ _ _ _ ht] at hmem
  obtain ⟨userName, hcm, _⟩ := post_in_runChain _ _ _ _ _ hmem
  rw [composeMessage_entryVars _ _ _ ht] at hcm
  cases hcm
  exact ⟨rfl, rfl⟩

/-- A second concrete Entry-typed request, with its own fields and headers. -/
def reqEntrySecond : Request :=
  { body := { sys := { id := "e9", spaceId := "s2", type := "Entry",
                       updatedBy := some { id := "U1" } },
              fields := [("new", [("en-US", "Fresh")])] },
    webhookName := "hook2", webhookTopic := "ContentManagement.Entry.auto_save" }

/-- The message actually POSTed for `reqEntrySecond`. -/
def secondMessage : SlackMessage :=
  { username := "Webhook: hook2",
    icon_emoji := ":contentful:",
    attachments := [
      { fallback := entryMessageText reqEntrySecond "Ada Lovelace",
        pretext := entryMessageText reqEntrySecond "Ada Lovelace",
        color := "#000000",
        fields := [
          { title := "Action applied to Entry",
            value := some "ContentManagement.Entry.auto_save", short := false },
          { title := "field.new", value := some "Fresh", short := false } ] } ] }

set_option maxRecDepth 8000 in
/-- Witness for C10: after a first request with its own fields, the second
request's POSTed message carries exactly the second request's header and
fields. -/
theorem second_request_message_witness :
    secondMessage.username = "Webhook: " ++ reqEntrySecond.webhookName ∧
    secondMessage.attachments.map SlackAttachment.fields =
      [ { title := "Action applied to Entry",
          value := some reqEntrySecond.webhookTopic, short := false }
        :: reqEntrySecond.body.fields.map (fun kv =>
            { title := "field." ++ kv.1,
              value := kv.2.lookup "en-US", short := false }) ] :=
  second_request_message_has_only_its_fields cfg0 okWorld okWorld initialVars
    reqEntryUpd reqEntrySecond cfg0.slackURL secondMessage rfl (by decide)

end ContentfulListener
